import Mathlib

/-!
Verification development for the plz-api request-intake service
(`postgres.py` and `api.py`): a shallow embedding of the Request
Admission & Credential Core, with theorems checking the specification
claims against the embedded code.

Modelling conventions:
* The relational store is embedded as an explicit `DB` state record; every
  stateful operation takes the state and returns it (possibly updated).
  Statement execution and commits are assumed to succeed (storage faults
  are environment nondeterminism outside the claims under study).
* JSON payloads are embedded as `JsonVal`; Python dictionaries from
  `request.get_json()` become association lists with first-key lookup.
* Python library primitives used by the source (`int(...)`, `uuid.UUID`,
  `len`, slicing, truthiness) are embedded as executable functions on
  `JsonVal`, including which exception class they raise: the source only
  catches `ValueError`, so the embedding distinguishes a `valueError`
  outcome (caught, clean failure return) from a `typeError` outcome
  (uncaught, the exception escapes the function).
* Database-generated row identifiers (serial or UUID keys) are modelled as
  the successor of a counter held in the state, hence always nonzero and
  never falsy under Python truthiness.
-/

/-- JSON value as decoded by `request.get_json()`: strings, integers,
booleans, null, arrays and objects. JSON numbers are modelled as integers. -/
inductive JsonVal where
  | s (v : String)
  | i (n : Int)
  | b (v : Bool)
  | null
  | arr (elems : List JsonVal)
  | obj (fields : List (String × JsonVal))

/-- A decoded JSON object (`form_data` in the source): an association list
with Python-dict first-key lookup semantics. -/
abbrev FormData := List (String × JsonVal)

/-- Membership-plus-access for a form field: `k in form_data` followed by
`form_data[k]`. -/
def lookupField (form : FormData) (k : String) : Option JsonVal :=
  form.lookup k

/-- Python truthiness of a JSON value (`if form_data[k]:`). -/
def pyTruthy : JsonVal → Bool
  | .s v => !(v == "")
  | .i n => !(n == 0)
  | .b v => v
  | .null => false
  | .arr l => !l.isEmpty
  | .obj l => !l.isEmpty

/-- Outcome of a Python library call that the source wraps in
`try ... except ValueError`: a value, a caught `ValueError`, or an
uncaught exception of another class (`TypeError`/`AttributeError`). -/
inductive PyParse (α : Type) where
  | ok (a : α)
  | valueError
  | typeError
deriving DecidableEq

/-- Digit-string value, used by the model of Python `int(str)`. -/
def digitsVal : List Char → Option Nat
  | [] => none
  | l => if l.all Char.isDigit
         then some (l.foldl (fun acc c => 10 * acc + (c.toNat - '0'.toNat)) 0)
         else none

/-- Models Python `int(s)` on a string: an optional sign followed by
decimal digits (whitespace and underscore separators are not modelled). -/
def parseIntStr (str : String) : Option Int :=
  match str.toList with
  | '-' :: rest => (digitsVal rest).map (fun n => -(n : Int))
  | '+' :: rest => (digitsVal rest).map (fun n => (n : Int))
  | l => (digitsVal l).map (fun n => (n : Int))

/-- Models Python `int(v)` on a JSON value: integers pass through, booleans
coerce (`int(True) = 1`), strings parse or raise `ValueError`; `None`,
arrays and objects raise `TypeError`, which the source does not catch. -/
def py_int : JsonVal → PyParse Int
  | .i n => .ok n
  | .b v => .ok (if v then 1 else 0)
  | .s v => match parseIntStr v with
            | some n => .ok n
            | none => .valueError
  | _ => .typeError

/-- Value of one hexadecimal digit, if the character is one (the digit
set accepted by Python int with base 16), written over code points. -/
def hexVal (c : Char) : Option Nat :=
  let n := c.toNat
  if 48 ≤ n && n ≤ 57 then some (n - 48)
  else if 97 ≤ n && n ≤ 102 then some (n - 87)
  else if 65 ≤ n && n ≤ 70 then some (n - 55)
  else none

/-- Removes occurrences of the prefix pattern urn-colon in one
left-to-right pass, as Python `str.replace` with an empty replacement. -/
def stripUrn : List Char → List Char
  | 'u' :: 'r' :: 'n' :: ':' :: rest => stripUrn rest
  | c :: rest => c :: stripUrn rest
  | [] => []

/-- Removes occurrences of the pattern uuid-colon in one pass. -/
def stripUuidColon : List Char → List Char
  | 'u' :: 'u' :: 'i' :: 'd' :: ':' :: rest => stripUuidColon rest
  | c :: rest => c :: stripUuidColon rest
  | [] => []

/-- Curly-brace character test, for Python `str.strip` over both braces. -/
def isBraceChar (c : Char) : Bool :=
  c == '\x7b' || c == '\x7d'

/-- Python `hex.strip` over the two curly braces: removes leading and
trailing brace characters. -/
def pyStripBraces (cs : List Char) : List Char :=
  ((cs.dropWhile isBraceChar).reverse.dropWhile isBraceChar).reverse

/-- Models Python `uuid.UUID(hex_string)`: removes urn and uuid prefixes,
strips braces, removes hyphens, then requires exactly 32 hexadecimal
digits; the result is the 128-bit value. Returns `none` where the library
raises `ValueError`. -/
def pyUUIDparse (str : String) : Option Nat :=
  let cs := pyStripBraces (stripUuidColon (stripUrn str.toList))
  let cs := cs.filter (fun c => !(c == '-'))
  if cs.length == 32 && cs.all (fun c => (hexVal c).isSome) then
    some (cs.foldl (fun acc c => 16 * acc + (hexVal c).getD 0) 0)
  else
    none

/-- Models Python `uuid.UUID(v)` on a JSON value: strings parse or raise
`ValueError`; any other value raises before reaching `ValueError`
(an `AttributeError`, modelled as the uncaught-exception outcome). -/
def py_uuid : JsonVal → PyParse Nat
  | .s v => match pyUUIDparse v with
            | some n => .ok n
            | none => .valueError
  | _ => .typeError

/-- Models Python `len(v)`: defined for strings, arrays and objects;
`none` models the uncaught `TypeError` on other values. -/
def py_len : JsonVal → Option Nat
  | .s v => some v.length
  | .arr l => some l.length
  | .obj l => some l.length
  | _ => none

/-- Models Python slicing `v[:n]` on the values the source slices. -/
def pySlice : JsonVal → Nat → JsonVal
  | .s v, n => .s (v.take n)
  | .arr l, n => .arr (l.take n)
  | v, _ => v

/-- Row of the blocklist table. -/
structure BlockRow where
  ip_address : String
  reverse_dns : Option String
  notes : Option String

/-- Row of the ticket table. Field values that arrive from JSON payloads
are stored as `JsonVal`, mirroring the parameter passed to the insert. -/
structure TicketRow where
  ticket_id : Nat
  show_id : Int
  requested_by : JsonVal
  ip_address : String
  reverse_dns : Option String
  notes : Option JsonVal
  requested_at : Int
  printed : Bool

/-- Row of the selected_request table. -/
structure SelReqRow where
  ticket_id : Nat
  song_id : Nat

/-- Row of the freeform_request table. -/
structure FreeReqRow where
  ticket_id : Nat
  artist_name : JsonVal
  song_title : JsonVal

/-- Row of the crate table. -/
structure CrateRow where
  crate_id : Nat
  crate_name : String

/-- Row of the credential table. -/
structure CredRow where
  credential_id : String
  password_hash : String
  active : Bool

/-- Row of the pg_timezone_names catalog view: a recognized zone name and
its abbreviation. -/
structure TzRow where
  name : String
  tzAbbrev : String

/-- The database state visible to the core: the tables the claims touch,
plus a counter from which generated row identifiers are drawn. -/
structure DB where
  blocklist : List BlockRow
  tickets : List TicketRow
  selectedRequests : List SelReqRow
  freeformRequests : List FreeReqRow
  crates : List CrateRow
  showCrate : List (Int × JsonVal)
  credentials : List CredRow
  tzNames : List TzRow
  nextId : Nat

/-- Fresh identifier for an inserted row: generated keys (serial or UUID)
are modelled as the successor of the state counter, hence never zero and
never falsy under Python truthiness. -/
def DB.freshId (db : DB) : Nat :=
  db.nextId + 1

namespace Postgres

/-- Embeds `is_blocked`: the blocklist select returns the rows whose
ip_address equals the argument, and the result is their truthiness. -/
def is_blocked (db : DB) (ip_address : String) : Bool :=
  !(db.blocklist.filter (fun r => r.ip_address == ip_address)).isEmpty

/-- Count of tickets from `ip` whose requested_at lies at or after
`cutoff`: the COUNT select of one rate-limit window. -/
def windowCount (tickets : List TicketRow) (ip : String) (cutoff : Int) : Nat :=
  (tickets.filter (fun t => cutoff ≤ t.requested_at && t.ip_address == ip)).length

/-- Embeds `is_rate_limited` together with the number of window queries it
executes before returning: the minute window (cutoff now - 60) against
threshold 3, then the hour window (now - 3600) against 10, then the day
window (now - 86400) against 20, short-circuiting on the first trip. -/
def is_rate_limited_trace (tickets : List TicketRow) (ip : String) (now : Int) :
    Bool × Nat :=
  if 3 ≤ windowCount tickets ip (now - 60) then (true, 1)
  else if 10 ≤ windowCount tickets ip (now - 3600) then (true, 2)
  else if 20 ≤ windowCount tickets ip (now - 86400) then (true, 3)
  else (false, 3)

/-- Embeds `is_rate_limited`: the boolean verdict. -/
def is_rate_limited (tickets : List TicketRow) (ip : String) (now : Int) : Bool :=
  (is_rate_limited_trace tickets ip now).1

end Postgres

/-- C1: is_rate_limited returns true exactly when one of the three sliding
windows anchored at the current time is tripped (at least 3 tickets from
the ip in the trailing minute, 10 in the trailing hour, 20 in the trailing
day, counted from the ticket table filtered by ip_address and
requested_at), and the three checks run in that order, short-circuiting on
the first match. -/
theorem c1_rate_limit_windows (tickets : List TicketRow) (ip : String) (now : Int) :
    (Postgres.is_rate_limited tickets ip now = true ↔
      (3 ≤ Postgres.windowCount tickets ip (now - 60) ∨
       10 ≤ Postgres.windowCount tickets ip (now - 3600) ∨
       20 ≤ Postgres.windowCount tickets ip (now - 86400))) ∧
    (3 ≤ Postgres.windowCount tickets ip (now - 60) →
      Postgres.is_rate_limited_trace tickets ip now = (true, 1)) ∧
    (Postgres.windowCount tickets ip (now - 60) < 3 →
      10 ≤ Postgres.windowCount tickets ip (now - 3600) →
      Postgres.is_rate_limited_trace tickets ip now = (true, 2)) ∧
    (Postgres.windowCount tickets ip (now - 60) < 3 →
      Postgres.windowCount tickets ip (now - 3600) < 10 →
      20 ≤ Postgres.windowCount tickets ip (now - 86400) →
      Postgres.is_rate_limited_trace tickets ip now = (true, 3)) ∧
    (Postgres.windowCount tickets ip (now - 60) < 3 →
      Postgres.windowCount tickets ip (now - 3600) < 10 →
      Postgres.windowCount tickets ip (now - 86400) < 20 →
      Postgres.is_rate_limited_trace tickets ip now = (false, 3)) := by
  unfold Postgres.is_rate_limited Postgres.is_rate_limited_trace
  refine ⟨?_, ?_, ?_, ?_, ?_⟩
  · constructor
    · intro h
      by_cases h1 : 3 ≤ Postgres.windowCount tickets ip (now - 60)
      · exact Or.inl h1
      · by_cases h2 : 10 ≤ Postgres.windowCount tickets ip (now - 3600)
        · exact Or.inr (Or.inl h2)
        · by_cases h3 : 20 ≤ Postgres.windowCount tickets ip (now - 86400)
          · exact Or.inr (Or.inr h3)
          · simp [h1, h2, h3] at h
    · intro h
      rcases h with h1 | h2 | h3
      · simp [h1]
      · by_cases h1 : 3 ≤ Postgres.windowCount tickets ip (now - 60)
        · simp [h1]
        · simp [h1, h2]
      · by_cases h1 : 3 ≤ Postgres.windowCount tickets ip (now - 60)
        · simp [h1]
        · by_cases h2 : 10 ≤ Postgres.windowCount tickets ip (now - 3600)
          · simp [h1, h2]
          · simp [h1, h2, h3]
  · intro h1
    simp [h1]
  · intro h1 h2
    simp [Nat.not_le.mpr h1, h2]
  · intro h1 h2 h3
    simp [Nat.not_le.mpr h1, Nat.not_le.mpr h2, h3]
  · intro h1 h2 h3
    simp [Nat.not_le.mpr h1, Nat.not_le.mpr h2, Nat.not_le.mpr h3]

/-- Witness for C1: with three tickets from one ip inside the trailing
minute, the limiter trips, and with none it does not. -/
theorem c1_rate_limit_windows_witness :
    Postgres.is_rate_limited
      [⟨1, 1, .s "a", "10.0.0.1", none, none, 95, false⟩,
       ⟨2, 1, .s "b", "10.0.0.1", none, none, 96, false⟩,
       ⟨3, 1, .s "c", "10.0.0.1", none, none, 99, false⟩] "10.0.0.1" 100 = true ∧
    Postgres.is_rate_limited [] "10.0.0.1" 100 = false := by
  constructor
  · exact (c1_rate_limit_windows
      [⟨1, 1, .s "a", "10.0.0.1", none, none, 95, false⟩,
       ⟨2, 1, .s "b", "10.0.0.1", none, none, 96, false⟩,
       ⟨3, 1, .s "c", "10.0.0.1", none, none, 99, false⟩] "10.0.0.1" 100).1.mpr
      (Or.inl (by decide))
  · have h := (c1_rate_limit_windows [] "10.0.0.1" 100).2.2.2.2
    have h2 := h (by decide) (by decide) (by decide)
    unfold Postgres.is_rate_limited
    rw [h2]

namespace Postgres

/-- Embeds `verify_api_key`. The argon2 `PasswordHasher.verify` primitive
is an external collaborator; it is passed in as the boolean comparison
`ph_verify hash secret`. Empty inputs are falsy, the credential select
filters on the identifier and `active = true`, and `rows[0]` takes the
first matching row. -/
def verify_api_key (ph_verify : String → String → Bool) (db : DB)
    (credential_id : String) (secret : String) : Bool :=
  if credential_id == "" then false
  else if secret == "" then false
  else
    match db.credentials.filter
        (fun c => c.credential_id == credential_id && c.active) with
    | [] => false
    | c :: _ => if ph_verify c.password_hash secret then true else false

/-- Return value of `create_crate` as a Python value: the insert path
returns the bare generated id (`row_id[0]` of the RETURNING fetch), while
the lookup path returns `crate_id[0]`, the first result row — a
one-column tuple wrapping the id. -/
inductive CrateRet where
  | pid (n : Nat)
  | prow (r : List Nat)
deriving DecidableEq

/-- Embeds `create_crate`: a `None` name is rejected; otherwise a select
by exact name, returning the first row if present, else an insert whose
generated id is returned when truthy. -/
def create_crate (crate_name : Option String) (db : DB) : Option CrateRet × DB :=
  match crate_name with
  | none => (none, db)
  | some name =>
    match db.crates.filter (fun c => c.crate_name == name) with
    | c :: _ => (some (.prow [c.crate_id]), db)
    | [] =>
      let cid := db.freshId
      let db1 : DB :=
        { db with crates := db.crates ++ [⟨cid, name⟩], nextId := db.nextId + 1 }
      if cid == 0 then (none, db1) else (some (.pid cid), db1)

/-- Models the Python identity test written as (crate_ids is type(list)):
the expression type(list) evaluates to the builtin metaclass itself, and
no JSON-decoded payload value is ever that object, so the identity test
is false for every input the endpoint can receive. -/
def isTheTypeBuiltin (_ : JsonVal) : Bool :=
  false

/-- Embeds `associate_crates`: the guard returns failure whenever the
input is not the builtin metaclass (which for JSON-decoded input is
always); the insert loop over the crate ids is reachable only if the
guard passes. -/
def associate_crates (show_id : Int) (crate_ids : JsonVal) (db : DB) : Bool × DB :=
  if !(isTheTypeBuiltin crate_ids) then (false, db)
  else
    match crate_ids with
    | .arr ids =>
      (true, { db with showCrate := db.showCrate ++ ids.map (fun cid => (show_id, cid)) })
    | _ => (false, db)

end Postgres

/-- C3: verify_api_key fails closed, returning false when either input is
empty, when no active credential with the id exists, and when the hash
comparison of the supplied secret against the stored hash fails; it
returns true only when none of those conditions holds. -/
theorem c3_verify_credential_fails_closed (ph_verify : String → String → Bool)
    (db : DB) (credential_id secret : String) :
    (credential_id = "" →
      Postgres.verify_api_key ph_verify db credential_id secret = false) ∧
    (secret = "" →
      Postgres.verify_api_key ph_verify db credential_id secret = false) ∧
    (db.credentials.filter
        (fun c => c.credential_id == credential_id && c.active) = [] →
      Postgres.verify_api_key ph_verify db credential_id secret = false) ∧
    (∀ c rest,
      db.credentials.filter
          (fun c => c.credential_id == credential_id && c.active) = c :: rest →
      ph_verify c.password_hash secret = false →
      Postgres.verify_api_key ph_verify db credential_id secret = false) ∧
    (Postgres.verify_api_key ph_verify db credential_id secret = true →
      credential_id ≠ "" ∧ secret ≠ "" ∧
      ∃ c rest,
        db.credentials.filter
            (fun c => c.credential_id == credential_id && c.active) = c :: rest ∧
        ph_verify c.password_hash secret = true) := by
  unfold Postgres.verify_api_key
  refine ⟨?_, ?_, ?_, ?_, ?_⟩
  · intro h
    simp [h]
  · intro h
    simp [h]
  · intro h
    rw [h]
    by_cases h1 : credential_id = "" <;> by_cases h2 : secret = "" <;> simp [h1, h2]
  · intro c rest hfilter hverify
    rw [hfilter]
    by_cases h1 : credential_id = "" <;> by_cases h2 : secret = "" <;>
      simp [h1, h2, hverify]
  · intro h
    by_cases h1 : credential_id = ""
    · simp [h1] at h
    · by_cases h2 : secret = ""
      · simp [h1, h2] at h
      · refine ⟨h1, h2, ?_⟩
        simp [h1, h2] at h
        rcases hm : db.credentials.filter
            (fun c => c.credential_id == credential_id && c.active) with _ | ⟨c, rest⟩
        · rw [hm] at h
          simp at h
        · rw [hm] at h
          refine ⟨c, rest, hm, ?_⟩
          by_cases hv : ph_verify c.password_hash secret
          · exact hv
          · simp [hv] at h

/-- Witness for C3: with a store holding one active credential whose hash
comparison succeeds only on the right secret, empty inputs and a wrong
secret all verify to false. -/
theorem c3_verify_credential_fails_closed_witness :
    (Postgres.verify_api_key (fun h s => h == "H" && s == "good")
      ⟨[], [], [], [], [], [], [⟨"id1", "H", true⟩], [], 0⟩ "" "good" = false) ∧
    (Postgres.verify_api_key (fun h s => h == "H" && s == "good")
      ⟨[], [], [], [], [], [], [⟨"id1", "H", true⟩], [], 0⟩ "id1" "" = false) ∧
    (Postgres.verify_api_key (fun h s => h == "H" && s == "good")
      ⟨[], [], [], [], [], [], [⟨"id1", "H", true⟩], [], 0⟩ "id2" "good" = false) ∧
    (Postgres.verify_api_key (fun h s => h == "H" && s == "good")
      ⟨[], [], [], [], [], [], [⟨"id1", "H", true⟩], [], 0⟩ "id1" "bad" = false) := by
  refine ⟨?_, ?_, ?_, ?_⟩
  · exact (c3_verify_credential_fails_closed (fun h s => h == "H" && s == "good")
      ⟨[], [], [], [], [], [], [⟨"id1", "H", true⟩], [], 0⟩ "" "good").1 rfl
  · exact (c3_verify_credential_fails_closed (fun h s => h == "H" && s == "good")
      ⟨[], [], [], [], [], [], [⟨"id1", "H", true⟩], [], 0⟩ "id1" "").2.1 rfl
  · exact (c3_verify_credential_fails_closed (fun h s => h == "H" && s == "good")
      ⟨[], [], [], [], [], [], [⟨"id1", "H", true⟩], [], 0⟩ "id2" "good").2.2.1 rfl
  · exact (c3_verify_credential_fails_closed (fun h s => h == "H" && s == "good")
      ⟨[], [], [], [], [], [], [⟨"id1", "H", true⟩], [], 0⟩ "id1" "bad").2.2.2.1
      ⟨"id1", "H", true⟩ [] rfl rfl

/-- C9: the list-type guard in associate_crates compares the input against
the builtin metaclass rather than checking list-ness, so for every input
(a proper list of crate ids included) the function returns failure and
performs no inserts. -/
theorem c9_associate_crates_always_fails (show_id : Int) (crate_ids : JsonVal)
    (db : DB) :
    Postgres.associate_crates show_id crate_ids db = (false, db) := by
  simp [Postgres.associate_crates, Postgres.isTheTypeBuiltin]

/-- The empty database state. -/
def emptyDB : DB :=
  ⟨[], [], [], [], [], [], [], [], 0⟩

/-- C7 counterexample: from an empty store, the first create_crate call
for Disco returns the bare generated id, while the second call returns
the first result row of the lookup — a one-column tuple wrapping that id.
The two returned values are not equal, so the two calls do not return the
same id. -/
theorem c7_counterexample :
    (Postgres.create_crate (some "Disco") emptyDB).1 =
      some (Postgres.CrateRet.pid 1) ∧
    (Postgres.create_crate (some "Disco")
        (Postgres.create_crate (some "Disco") emptyDB).2).1 =
      some (Postgres.CrateRet.prow [1]) ∧
    some (Postgres.CrateRet.pid 1) ≠ some (Postgres.CrateRet.prow [1]) :=
  ⟨rfl, rfl, by decide⟩

/-- C7 amended: for every non-empty crate name not already present,
calling create_crate twice creates exactly one crate row and both calls
resolve the same underlying id, but the first call returns the bare new
id while the second returns the one-column result row wrapping that id. -/
theorem c7_create_crate_twice (name : String) (db : DB)
    (_hname : name ≠ "")
    (habs : db.crates.filter (fun c => c.crate_name == name) = []) :
    (Postgres.create_crate (some name) db).1 =
      some (Postgres.CrateRet.pid db.freshId) ∧
    Postgres.create_crate (some name) ((Postgres.create_crate (some name) db).2) =
      (some (Postgres.CrateRet.prow [db.freshId]),
        (Postgres.create_crate (some name) db).2) ∧
    ((((Postgres.create_crate (some name) db).2).crates.filter
        (fun c => c.crate_name == name)).map (fun c => c.crate_id)) =
      [db.freshId] := by
  have hfresh : (db.freshId == 0) = false := by
    simp [DB.freshId]
  have hstep : Postgres.create_crate (some name) db =
      (some (Postgres.CrateRet.pid db.freshId),
        { db with crates := db.crates ++ [⟨db.freshId, name⟩],
                  nextId := db.nextId + 1 }) := by
    simp only [Postgres.create_crate, habs, hfresh]
    simp [DB.freshId]
  refine ⟨?_, ?_, ?_⟩
  · rw [hstep]
  · rw [hstep]
    simp only [Postgres.create_crate, List.filter_append, habs]
    simp
  · rw [hstep]
    simp only [List.filter_append, habs]
    simp

/-- Witness for C7 amended: creating Disco twice from the empty store
yields the bare id on the first call, the wrapped row with the same id on
the second, no state change on the second call, and exactly one crate row
named Disco. -/
theorem c7_create_crate_twice_witness :
    (Postgres.create_crate (some "Disco") emptyDB).1 =
      some (Postgres.CrateRet.pid emptyDB.freshId) ∧
    Postgres.create_crate (some "Disco")
        ((Postgres.create_crate (some "Disco") emptyDB).2) =
      (some (Postgres.CrateRet.prow [emptyDB.freshId]),
        (Postgres.create_crate (some "Disco") emptyDB).2) ∧
    ((((Postgres.create_crate (some "Disco") emptyDB).2).crates.filter
        (fun c => c.crate_name == "Disco")).map (fun c => c.crate_id)) =
      [emptyDB.freshId] :=
  c7_create_crate_twice "Disco" emptyDB (by decide) rfl

namespace Postgres

/-- Row transformation performed by the UPDATE in
`mark_ticket_as_printed`: set printed on every row whose ticket_id
matches. -/
def setPrinted (u : Nat) (t : TicketRow) : TicketRow :=
  if t.ticket_id == u then { t with printed := true } else t

/-- Embeds `mark_ticket_as_printed`: the id must parse as a UUID (a parse
failure is the caught `ValueError`, returning false); the UPDATE then
sets printed on the matching rows and reports success regardless of how
many rows matched. -/
def mark_ticket_as_printed (ticket_id : String) (db : DB) : Bool × DB :=
  match pyUUIDparse ticket_id with
  | none => (false, db)
  | some u => (true, { db with tickets := db.tickets.map (setPrinted u) })

end Postgres

/-- Applying the UPDATE row transformation twice equals applying it
once. -/
theorem setPrinted_idem (u : Nat) (t : TicketRow) :
    Postgres.setPrinted u (Postgres.setPrinted u t) = Postgres.setPrinted u t := by
  unfold Postgres.setPrinted
  by_cases h : t.ticket_id == u
  · simp [h]
  · simp [h]

/-- Applying the UPDATE to a table twice equals applying it once. -/
theorem mapSetPrinted_idem (u : Nat) (l : List TicketRow) :
    (l.map (Postgres.setPrinted u)).map (Postgres.setPrinted u) =
      l.map (Postgres.setPrinted u) := by
  induction l with
  | nil => rfl
  | cons a l ih => simp [setPrinted_idem, ih]

/-- C8: for every id that parses as a UUID, mark_ticket_as_printed
reports success and sets printed on every matching ticket, and repeating
the call on the resulting state succeeds again without changing it; an id
that does not parse as a UUID is rejected with a false return and no
state change. -/
theorem c8_mark_printed_idempotent (ticket_id : String) (db : DB) :
    (∀ u, pyUUIDparse ticket_id = some u →
      (Postgres.mark_ticket_as_printed ticket_id db).1 = true ∧
      (∀ t ∈ ((Postgres.mark_ticket_as_printed ticket_id db).2).tickets,
        t.ticket_id = u → t.printed = true) ∧
      Postgres.mark_ticket_as_printed ticket_id
          ((Postgres.mark_ticket_as_printed ticket_id db).2) =
        (true, (Postgres.mark_ticket_as_printed ticket_id db).2)) ∧
    (pyUUIDparse ticket_id = none →
      Postgres.mark_ticket_as_printed ticket_id db = (false, db)) := by
  constructor
  · intro u hu
    refine ⟨?_, ?_, ?_⟩
    · unfold Postgres.mark_ticket_as_printed
      rw [hu]
    · intro t ht htid
      unfold Postgres.mark_ticket_as_printed at ht
      rw [hu] at ht
      simp only [List.mem_map] at ht
      rcases ht with ⟨a, _, hfa⟩
      by_cases h : a.ticket_id == u
      · rw [← hfa]
        simp [Postgres.setPrinted, h]
      · rw [← hfa] at htid
        simp [Postgres.setPrinted, h] at htid
        exact absurd (by simp [htid] : (a.ticket_id == u) = true) (by simp [h])
    · simp only [Postgres.mark_ticket_as_printed, hu]
      rw [mapSetPrinted_idem]
  · intro hu
    unfold Postgres.mark_ticket_as_printed
    rw [hu]

/-- Witness for C8: on a store holding ticket 1, marking by the UUID
string for 1 succeeds, repeating the call succeeds without changing the
state, and a malformed id is rejected. -/
theorem c8_mark_printed_idempotent_witness :
    (Postgres.mark_ticket_as_printed "00000000-0000-0000-0000-000000000001"
      ⟨[], [⟨1, 7, .s "z", "10.0.0.1", none, none, 50, false⟩],
        [], [], [], [], [], [], 1⟩).1 = true ∧
    Postgres.mark_ticket_as_printed "00000000-0000-0000-0000-000000000001"
        ((Postgres.mark_ticket_as_printed "00000000-0000-0000-0000-000000000001"
          ⟨[], [⟨1, 7, .s "z", "10.0.0.1", none, none, 50, false⟩],
            [], [], [], [], [], [], 1⟩).2) =
      (true, (Postgres.mark_ticket_as_printed "00000000-0000-0000-0000-000000000001"
        ⟨[], [⟨1, 7, .s "z", "10.0.0.1", none, none, 50, false⟩],
          [], [], [], [], [], [], 1⟩).2) ∧
    Postgres.mark_ticket_as_printed "not-a-uuid"
        ⟨[], [⟨1, 7, .s "z", "10.0.0.1", none, none, 50, false⟩],
          [], [], [], [], [], [], 1⟩ =
      (false, ⟨[], [⟨1, 7, .s "z", "10.0.0.1", none, none, 50, false⟩],
        [], [], [], [], [], [], 1⟩) := by
  have h := c8_mark_printed_idempotent "00000000-0000-0000-0000-000000000001"
    ⟨[], [⟨1, 7, .s "z", "10.0.0.1", none, none, 50, false⟩],
      [], [], [], [], [], [], 1⟩
  have h1 := h.1 1 rfl
  have h2 := c8_mark_printed_idempotent "not-a-uuid"
    ⟨[], [⟨1, 7, .s "z", "10.0.0.1", none, none, 50, false⟩],
      [], [], [], [], [], [], 1⟩
  exact ⟨h1.1, h1.2.2, h2.2 rfl⟩

/-- C10: for every id string that parses as a UUID but matches no stored
ticket, mark_ticket_as_printed reports success and leaves the store
unchanged — the zero-row UPDATE is indistinguishable to the caller from a
successful transition. -/
theorem c10_mark_printed_missing_id (ticket_id : String) (db : DB) (u : Nat)
    (hu : pyUUIDparse ticket_id = some u)
    (habs : ∀ t ∈ db.tickets, t.ticket_id ≠ u) :
    Postgres.mark_ticket_as_printed ticket_id db = (true, db) := by
  simp only [Postgres.mark_ticket_as_printed, hu]
  have hpt : ∀ t ∈ db.tickets, Postgres.setPrinted u t = id t := by
    intro t ht
    have hne := habs t ht
    simp [Postgres.setPrinted, hne]
  have hmap : db.tickets.map (Postgres.setPrinted u) = db.tickets := by
    rw [List.map_congr_left hpt, List.map_id]
  rw [hmap]

/-- Witness for C10: the UUID string for id 9 matches no stored ticket,
yet the call reports success and the store is unchanged. -/
theorem c10_mark_printed_missing_id_witness :
    Postgres.mark_ticket_as_printed "00000000-0000-0000-0000-000000000009"
        ⟨[], [⟨1, 7, .s "z", "10.0.0.1", none, none, 50, false⟩],
          [], [], [], [], [], [], 1⟩ =
      (true, ⟨[], [⟨1, 7, .s "z", "10.0.0.1", none, none, 50, false⟩],
        [], [], [], [], [], [], 1⟩) :=
  c10_mark_printed_missing_id "00000000-0000-0000-0000-000000000009"
    ⟨[], [⟨1, 7, .s "z", "10.0.0.1", none, none, 50, false⟩],
      [], [], [], [], [], [], 1⟩ 9 rfl (by decide)

/-- Database effect performed while handling a submission: an admission
check or a row insert. -/
inductive Eff where
  | checkBlocked
  | checkRate
  | writeTicket
  | writeVariant
deriving DecidableEq

/-- Outcome of a postgres intake function as a Python value: the ticket id
on success, the false return on validation failure, or an uncaught
exception escaping the function. -/
inductive IntakeResult where
  | success (ticket_id : Nat)
  | failure
  | raised
deriving DecidableEq

namespace Postgres

/-- The two inserts ending `add_selected_request`: the ticket row with its
generated id, then the selected_request row referencing it. -/
def insertTicketSelected (show_id : Int) (song_id : Nat)
    (submitted_by : JsonVal) (notes : Option JsonVal) (ip_address : String)
    (rdns : Option String) (now : Int) (db : DB) :
    IntakeResult × DB × List Eff :=
  let tid := db.freshId
  let db1 : DB := { db with
    tickets := db.tickets ++
      [⟨tid, show_id, submitted_by, ip_address, rdns, notes, now, false⟩],
    nextId := db.nextId + 1 }
  let db2 : DB := { db1 with
    selectedRequests := db1.selectedRequests ++ [⟨tid, song_id⟩] }
  (.success tid, db2, [.writeTicket, .writeVariant])

/-- The two inserts ending `add_freeform_request`: the ticket row with its
generated id, then the freeform_request row referencing it. -/
def insertTicketFreeform (show_id : Int) (artist_name song_title : JsonVal)
    (submitted_by : JsonVal) (notes : Option JsonVal) (ip_address : String)
    (rdns : Option String) (now : Int) (db : DB) :
    IntakeResult × DB × List Eff :=
  let tid := db.freshId
  let db1 : DB := { db with
    tickets := db.tickets ++
      [⟨tid, show_id, submitted_by, ip_address, rdns, notes, now, false⟩],
    nextId := db.nextId + 1 }
  let db2 : DB := { db1 with
    freeformRequests := db1.freeformRequests ++ [⟨tid, artist_name, song_title⟩] }
  (.success tid, db2, [.writeTicket, .writeVariant])

/-- Embeds `add_selected_request` from postgres.py: sequential validation
(show_id must parse as an int, song_id as a UUID, submitted_by must be
present and non-empty, truncated to 128; notes optional, truncated to
512), each parse distinguishing the caught `ValueError` from an uncaught
exception, followed by the two inserts. The reverse-DNS answer for the ip
and the server time are environment parameters. -/
def add_selected_request (form : FormData) (ip_address : String)
    (rdns : Option String) (now : Int) (db : DB) :
    IntakeResult × DB × List Eff :=
  match lookupField form "show_id" with
  | none => (.failure, db, [])
  | some v =>
    match py_int v with
    | .typeError => (.raised, db, [])
    | .valueError => (.failure, db, [])
    | .ok show_id =>
      match lookupField form "song_id" with
      | none => (.failure, db, [])
      | some w =>
        match py_uuid w with
        | .typeError => (.raised, db, [])
        | .valueError => (.failure, db, [])
        | .ok song_id =>
          match lookupField form "submitted_by" with
          | none => (.failure, db, [])
          | some sb =>
            match py_len sb with
            | none => (.raised, db, [])
            | some lsb =>
              if lsb == 0 then (.failure, db, [])
              else
                let submitted_by := if 128 < lsb then pySlice sb 128 else sb
                match lookupField form "notes" with
                | some nv =>
                  match py_len nv with
                  | none => (.raised, db, [])
                  | some ln =>
                    let notes := if 512 < ln then pySlice nv 512 else nv
                    insertTicketSelected show_id song_id submitted_by
                      (some notes) ip_address rdns now db
                | none =>
                  insertTicketSelected show_id song_id submitted_by
                    none ip_address rdns now db

/-- Embeds `add_freeform_request` from postgres.py: sequential validation
(show_id must parse as an int; artist_name, song_title, submitted_by must
be present and non-empty, truncated to 128, 256 and 128; notes optional,
truncated to 512), followed by the two inserts. -/
def add_freeform_request (form : FormData) (ip_address : String)
    (rdns : Option String) (now : Int) (db : DB) :
    IntakeResult × DB × List Eff :=
  match lookupField form "show_id" with
  | none => (.failure, db, [])
  | some v =>
    match py_int v with
    | .typeError => (.raised, db, [])
    | .valueError => (.failure, db, [])
    | .ok show_id =>
      match lookupField form "artist_name" with
      | none => (.failure, db, [])
      | some an =>
        match py_len an with
        | none => (.raised, db, [])
        | some lan =>
          if lan == 0 then (.failure, db, [])
          else
            let artist_name := if 128 < lan then pySlice an 128 else an
            match lookupField form "song_title" with
            | none => (.failure, db, [])
            | some st =>
              match py_len st with
              | none => (.raised, db, [])
              | some lst =>
                if lst == 0 then (.failure, db, [])
                else
                  let song_title := if 256 < lst then pySlice st 256 else st
                  match lookupField form "submitted_by" with
                  | none => (.failure, db, [])
                  | some sb =>
                    match py_len sb with
                    | none => (.raised, db, [])
                    | some lsb =>
                      if lsb == 0 then (.failure, db, [])
                      else
                        let submitted_by := if 128 < lsb then pySlice sb 128 else sb
                        match lookupField form "notes" with
                        | some nv =>
                          match py_len nv with
                          | none => (.raised, db, [])
                          | some ln =>
                            let notes := if 512 < ln then pySlice nv 512 else nv
                            insertTicketFreeform show_id artist_name song_title
                              submitted_by (some notes) ip_address rdns now db
                        | none =>
                          insertTicketFreeform show_id artist_name song_title
                            submitted_by none ip_address rdns now db

end Postgres

/-- Body of an HTTP-level response from a submission endpoint. -/
inductive RespBody where
  | successMsg
  | insertErrMsg
  | rateLimitedMsg
  | ticketIdBody (n : Nat)
deriving DecidableEq

/-- HTTP-level outcome: a status/body response, or an exception escaping
the handler. -/
inductive ApiOut where
  | resp (status : Nat) (body : RespBody)
  | raised
deriving DecidableEq

namespace Api

/-- Embeds the `/add_selected_request` handler from api.py: the honeypot
check on a truthy email field first (synthetic success), then the
blocklist check (terminal 500), then the rate-limit check (terminal 401),
then the postgres intake, whose results map to 201 with the ticket id or
500. -/
def add_selected_request (form : FormData) (remote_addr : String)
    (rdns : Option String) (now : Int) (db : DB) : ApiOut × DB × List Eff :=
  let honeypot := match lookupField form "email" with
                  | some v => pyTruthy v
                  | none => false
  if honeypot then (.resp 201 .successMsg, db, [])
  else if Postgres.is_blocked db remote_addr then
    (.resp 500 .insertErrMsg, db, [.checkBlocked])
  else if Postgres.is_rate_limited db.tickets remote_addr now then
    (.resp 401 .rateLimitedMsg, db, [.checkBlocked, .checkRate])
  else
    match Postgres.add_selected_request form remote_addr rdns now db with
    | (.success tid, db2, effs) =>
      (.resp 201 (.ticketIdBody tid), db2, .checkBlocked :: .checkRate :: effs)
    | (.failure, db2, effs) =>
      (.resp 500 .insertErrMsg, db2, .checkBlocked :: .checkRate :: effs)
    | (.raised, db2, effs) =>
      (.raised, db2, .checkBlocked :: .checkRate :: effs)

/-- Embeds the `/add_freeform_request` handler from api.py: identical
admission pipeline in front of the freeform intake. -/
def add_freeform_request (form : FormData) (remote_addr : String)
    (rdns : Option String) (now : Int) (db : DB) : ApiOut × DB × List Eff :=
  let honeypot := match lookupField form "email" with
                  | some v => pyTruthy v
                  | none => false
  if honeypot then (.resp 201 .successMsg, db, [])
  else if Postgres.is_blocked db remote_addr then
    (.resp 500 .insertErrMsg, db, [.checkBlocked])
  else if Postgres.is_rate_limited db.tickets remote_addr now then
    (.resp 401 .rateLimitedMsg, db, [.checkBlocked, .checkRate])
  else
    match Postgres.add_freeform_request form remote_addr rdns now db with
    | (.success tid, db2, effs) =>
      (.resp 201 (.ticketIdBody tid), db2, .checkBlocked :: .checkRate :: effs)
    | (.failure, db2, effs) =>
      (.resp 500 .insertErrMsg, db2, .checkBlocked :: .checkRate :: effs)
    | (.raised, db2, effs) =>
      (.raised, db2, .checkBlocked :: .checkRate :: effs)

end Api

/-- C2: a submission payload with a non-empty (truthy) email field makes
both submission endpoints return the synthetic 201 success immediately,
with the store unchanged and no admission checks or database writes
performed. -/
theorem c2_honeypot_shortcircuit (form : FormData) (remote_addr : String)
    (rdns : Option String) (now : Int) (db : DB) (v : JsonVal)
    (hv : lookupField form "email" = some v) (ht : pyTruthy v = true) :
    Api.add_selected_request form remote_addr rdns now db =
      (.resp 201 .successMsg, db, []) ∧
    Api.add_freeform_request form remote_addr rdns now db =
      (.resp 201 .successMsg, db, []) := by
  constructor
  · simp [Api.add_selected_request, hv, ht]
  · simp [Api.add_freeform_request, hv, ht]

/-- Witness for C2: a payload with email filled is absorbed by both
endpoints as a synthetic success without touching the store. -/
theorem c2_honeypot_shortcircuit_witness :
    Api.add_selected_request [("email", JsonVal.s "bot@spam.example")]
        "10.0.0.1" none 0 emptyDB = (.resp 201 .successMsg, emptyDB, []) ∧
    Api.add_freeform_request [("email", JsonVal.s "bot@spam.example")]
        "10.0.0.1" none 0 emptyDB = (.resp 201 .successMsg, emptyDB, []) :=
  c2_honeypot_shortcircuit [("email", JsonVal.s "bot@spam.example")]
    "10.0.0.1" none 0 emptyDB (JsonVal.s "bot@spam.example") rfl rfl

/-- C5: on a payload that does not trip the honeypot, admission is decided
in a fixed order at both endpoints: a blocked ip is terminally rejected
with the 500 insert-error response and only the blocklist check runs; an
unblocked rate-limited ip is terminally rejected with the 401 response,
distinguishable from the blocklist rejection, after exactly the two
checks; and only when both checks pass does the ticket intake run, its
state change and writes appearing after the two checks. -/
theorem c5_admission_order (form : FormData) (remote_addr : String)
    (rdns : Option String) (now : Int) (db : DB)
    (hhp : (match lookupField form "email" with
            | some v => pyTruthy v
            | none => false) = false) :
    (Postgres.is_blocked db remote_addr = true →
      Api.add_selected_request form remote_addr rdns now db =
        (.resp 500 .insertErrMsg, db, [.checkBlocked]) ∧
      Api.add_freeform_request form remote_addr rdns now db =
        (.resp 500 .insertErrMsg, db, [.checkBlocked])) ∧
    (Postgres.is_blocked db remote_addr = false →
      Postgres.is_rate_limited db.tickets remote_addr now = true →
      Api.add_selected_request form remote_addr rdns now db =
        (.resp 401 .rateLimitedMsg, db, [.checkBlocked, .checkRate]) ∧
      Api.add_freeform_request form remote_addr rdns now db =
        (.resp 401 .rateLimitedMsg, db, [.checkBlocked, .checkRate])) ∧
    (Postgres.is_blocked db remote_addr = false →
      Postgres.is_rate_limited db.tickets remote_addr now = false →
      (Api.add_selected_request form remote_addr rdns now db).2 =
        ((Postgres.add_selected_request form remote_addr rdns now db).2.1,
          .checkBlocked :: .checkRate ::
            (Postgres.add_selected_request form remote_addr rdns now db).2.2) ∧
      (Api.add_freeform_request form remote_addr rdns now db).2 =
        ((Postgres.add_freeform_request form remote_addr rdns now db).2.1,
          .checkBlocked :: .checkRate ::
            (Postgres.add_freeform_request form remote_addr rdns now db).2.2)) ∧
    ApiOut.resp 401 .rateLimitedMsg ≠ ApiOut.resp 500 .insertErrMsg := by
  refine ⟨?_, ?_, ?_, by decide⟩
  · intro hb
    constructor
    · simp [Api.add_selected_request, hhp, hb]
    · simp [Api.add_freeform_request, hhp, hb]
  · intro hb hr
    constructor
    · simp [Api.add_selected_request, hhp, hb, hr]
    · simp [Api.add_freeform_request, hhp, hb, hr]
  · intro hb hr
    constructor
    · rcases h : Postgres.add_selected_request form remote_addr rdns now db
        with ⟨r, db2, effs⟩
      cases r <;> simp [Api.add_selected_request, hhp, hb, hr, h]
    · rcases h : Postgres.add_freeform_request form remote_addr rdns now db
        with ⟨r, db2, effs⟩
      cases r <;> simp [Api.add_freeform_request, hhp, hb, hr, h]

/-- Witness for C5: with ip 10.0.0.9 blocklisted, a non-honeypot payload
is rejected with the 500 insert-error response after only the blocklist
check; on the empty store the same payload reaches the intake, whose
validation failure maps to 500 after both checks. -/
theorem c5_admission_order_witness :
    Api.add_selected_request [("show_id", JsonVal.s "1")] "10.0.0.9" none 0
        ⟨[⟨"10.0.0.9", none, none⟩], [], [], [], [], [], [], [], 0⟩ =
      (.resp 500 .insertErrMsg,
        ⟨[⟨"10.0.0.9", none, none⟩], [], [], [], [], [], [], [], 0⟩,
        [.checkBlocked]) ∧
    (Api.add_selected_request [("show_id", JsonVal.s "1")] "10.0.0.9" none 0
        emptyDB).2 =
      ((Postgres.add_selected_request [("show_id", JsonVal.s "1")] "10.0.0.9"
          none 0 emptyDB).2.1,
        .checkBlocked :: .checkRate ::
          (Postgres.add_selected_request [("show_id", JsonVal.s "1")] "10.0.0.9"
            none 0 emptyDB).2.2) := by
  constructor
  · exact ((c5_admission_order [("show_id", JsonVal.s "1")] "10.0.0.9" none 0
      ⟨[⟨"10.0.0.9", none, none⟩], [], [], [], [], [], [], [], 0⟩ rfl).1 rfl).1
  · exact ((c5_admission_order [("show_id", JsonVal.s "1")] "10.0.0.9" none 0
      emptyDB rfl).2.2.1 rfl rfl).1

/-- C4 counterexample: a null show_id is not parseable as an integer, yet
the submission does not fail with the validation-failure return — the
uncaught exception outcome escapes both intake functions instead (no rows
are written either way). -/
theorem c4_counterexample :
    py_int JsonVal.null = PyParse.typeError ∧
    Postgres.add_selected_request
        [("show_id", JsonVal.null),
         ("song_id", JsonVal.s "00000000-0000-0000-0000-000000000001"),
         ("submitted_by", JsonVal.s "z")] "10.0.0.1" none 0 emptyDB =
      (.raised, emptyDB, []) ∧
    Postgres.add_freeform_request
        [("show_id", JsonVal.null), ("artist_name", JsonVal.s "X"),
         ("song_title", JsonVal.s "Y"), ("submitted_by", JsonVal.s "z")]
        "10.0.0.1" none 0 emptyDB =
      (.raised, emptyDB, []) ∧
    IntakeResult.raised ≠ IntakeResult.failure :=
  ⟨rfl, rfl, rfl, by decide⟩

/-- C4 amended: at both intake entry points, a missing required field or
a malformed string identifier fails the submission with the
validation-failure return and writes no rows; a non-string value where
parsing expects a string raises the uncaught exception outcome instead of
the validation failure, still writing no rows. In every such case the
store is unchanged and no Ticket or variant row is created. -/
theorem c4_validation_no_partial_write (form : FormData) (ip : String)
    (rdns : Option String) (now : Int) (db : DB) :
    (lookupField form "show_id" = none →
      Postgres.add_selected_request form ip rdns now db = (.failure, db, []) ∧
      Postgres.add_freeform_request form ip rdns now db = (.failure, db, [])) ∧
    (∀ v, lookupField form "show_id" = some v → py_int v = .valueError →
      Postgres.add_selected_request form ip rdns now db = (.failure, db, []) ∧
      Postgres.add_freeform_request form ip rdns now db = (.failure, db, [])) ∧
    (∀ v, lookupField form "show_id" = some v → py_int v = .typeError →
      Postgres.add_selected_request form ip rdns now db = (.raised, db, []) ∧
      Postgres.add_freeform_request form ip rdns now db = (.raised, db, [])) ∧
    (∀ v n, lookupField form "show_id" = some v → py_int v = .ok n →
      lookupField form "song_id" = none →
      Postgres.add_selected_request form ip rdns now db = (.failure, db, [])) ∧
    (∀ v n w, lookupField form "show_id" = some v → py_int v = .ok n →
      lookupField form "song_id" = some w → py_uuid w = .valueError →
      Postgres.add_selected_request form ip rdns now db = (.failure, db, [])) ∧
    (∀ v n w, lookupField form "show_id" = some v → py_int v = .ok n →
      lookupField form "song_id" = some w → py_uuid w = .typeError →
      Postgres.add_selected_request form ip rdns now db = (.raised, db, [])) ∧
    (∀ v n w m, lookupField form "show_id" = some v → py_int v = .ok n →
      lookupField form "song_id" = some w → py_uuid w = .ok m →
      lookupField form "submitted_by" = none →
      Postgres.add_selected_request form ip rdns now db = (.failure, db, [])) ∧
    (∀ v n, lookupField form "show_id" = some v → py_int v = .ok n →
      lookupField form "artist_name" = none →
      Postgres.add_freeform_request form ip rdns now db = (.failure, db, [])) ∧
    (∀ v n an lan, lookupField form "show_id" = some v → py_int v = .ok n →
      lookupField form "artist_name" = some an → py_len an = some lan →
      lan ≠ 0 → lookupField form "song_title" = none →
      Postgres.add_freeform_request form ip rdns now db = (.failure, db, [])) ∧
    (∀ v n an lan st lst, lookupField form "show_id" = some v →
      py_int v = .ok n →
      lookupField form "artist_name" = some an → py_len an = some lan →
      lan ≠ 0 → lookupField form "song_title" = some st →
      py_len st = some lst → lst ≠ 0 →
      lookupField form "submitted_by" = none →
      Postgres.add_freeform_request form ip rdns now db = (.failure, db, [])) := by
  refine ⟨?_, ?_, ?_, ?_, ?_, ?_, ?_, ?_, ?_, ?_⟩
  · intro h
    constructor
    · simp [Postgres.add_selected_request, h]
    · simp [Postgres.add_freeform_request, h]
  · intro v hv hp
    constructor
    · simp [Postgres.add_selected_request, hv, hp]
    · simp [Postgres.add_freeform_request, hv, hp]
  · intro v hv hp
    constructor
    · simp [Postgres.add_selected_request, hv, hp]
    · simp [Postgres.add_freeform_request, hv, hp]
  · intro v n hv hp h
    simp [Postgres.add_selected_request, hv, hp, h]
  · intro v n w hv hp hw hu
    simp [Postgres.add_selected_request, hv, hp, hw, hu]
  · intro v n w hv hp hw hu
    simp [Postgres.add_selected_request, hv, hp, hw, hu]
  · intro v n w m hv hp hw hu h
    simp [Postgres.add_selected_request, hv, hp, hw, hu, h]
  · intro v n hv hp h
    simp [Postgres.add_freeform_request, hv, hp, h]
  · intro v n an lan hv hp han hlan hne h
    simp [Postgres.add_freeform_request, hv, hp, han, hlan, hne, h]
  · intro v n an lan st lst hv hp han hlan hlanne hst hlst hlstne h
    simp [Postgres.add_freeform_request, hv, hp, han, hlan, hlanne, hst,
      hlst, hlstne, h]

/-- Witness for C4 amended: a missing show_id fails cleanly with no
writes, and a selected request whose song_id is not a UUID fails cleanly
with no writes. -/
theorem c4_validation_no_partial_write_witness :
    Postgres.add_selected_request [] "10.0.0.1" none 0 emptyDB =
      (.failure, emptyDB, []) ∧
    Postgres.add_selected_request
        [("show_id", JsonVal.s "1"), ("song_id", JsonVal.s "not-a-uuid"),
         ("submitted_by", JsonVal.s "z")] "10.0.0.1" none 0 emptyDB =
      (.failure, emptyDB, []) := by
  constructor
  · exact ((c4_validation_no_partial_write [] "10.0.0.1" none 0 emptyDB).1
      rfl).1
  · exact (c4_validation_no_partial_write
      [("show_id", JsonVal.s "1"), ("song_id", JsonVal.s "not-a-uuid"),
       ("submitted_by", JsonVal.s "z")] "10.0.0.1" none 0 emptyDB).2.2.2.2.1
      (JsonVal.s "1") 1 (JsonVal.s "not-a-uuid") rfl rfl rfl rfl

/-- Ordered insert, for the embedding of the ORDER BY clause. -/
def insertLe {α : Type} (le : α → α → Bool) (a : α) : List α → List α
  | [] => [a]
  | b :: bs => if le a b then a :: b :: bs else b :: insertLe le a bs

/-- Insertion sort, embedding the ORDER BY clause of a select. -/
def sortByLe {α : Type} (le : α → α → Bool) : List α → List α
  | [] => []
  | a :: as => insertLe le a (sortByLe le as)

/-- Ordered insert permutes the element onto the list. -/
theorem insertLe_perm {α : Type} (le : α → α → Bool) (a : α) (l : List α) :
    List.Perm (insertLe le a l) (a :: l) := by
  induction l with
  | nil => exact List.Perm.refl _
  | cons b bs ih =>
    by_cases h : le a b
    · simp [insertLe, h]
    · simp only [insertLe, h, if_false]
      exact (ih.cons b).trans (List.Perm.swap a b bs)

/-- The sort is a permutation of its input. -/
theorem sortByLe_perm {α : Type} (le : α → α → Bool) (l : List α) :
    List.Perm (sortByLe le l) l := by
  induction l with
  | nil => exact List.Perm.refl _
  | cons a as ih => exact (insertLe_perm le a (sortByLe le as)).trans (ih.cons a)

/-- Ordered insert preserves sortedness, for a transitive total
comparison. -/
theorem insertLe_pairwise {α : Type} (le : α → α → Bool)
    (htrans : ∀ a b c, le a b = true → le b c = true → le a c = true)
    (htot : ∀ a b, le a b = true ∨ le b a = true)
    (a : α) (l : List α) (hl : l.Pairwise (fun x y => le x y = true)) :
    (insertLe le a l).Pairwise (fun x y => le x y = true) := by
  induction l with
  | nil => simp [insertLe]
  | cons b bs ih =>
    rcases List.pairwise_cons.mp hl with ⟨hb, hbs⟩
    by_cases h : le a b
    · simp only [insertLe, h, if_true]
      refine List.pairwise_cons.mpr ⟨?_, hl⟩
      intro x hx
      rcases List.mem_cons.mp hx with rfl | hx2
      · exact h
      · exact htrans a b x h (hb x hx2)
    · simp only [insertLe, h, if_false]
      refine List.pairwise_cons.mpr ⟨?_, ih hbs⟩
      intro x hx
      have hx2 := (insertLe_perm le a bs).mem_iff.mp hx
      rcases List.mem_cons.mp hx2 with rfl | hx3
      · rcases htot x b with h1 | h1
        · exact absurd h1 h
        · exact h1
      · exact hb x hx3

/-- The sort output is sorted, for a transitive total comparison. -/
theorem sortByLe_pairwise {α : Type} (le : α → α → Bool)
    (htrans : ∀ a b c, le a b = true → le b c = true → le a c = true)
    (htot : ∀ a b, le a b = true ∨ le b a = true) (l : List α) :
    (sortByLe le l).Pairwise (fun x y => le x y = true) := by
  induction l with
  | nil => simp [sortByLe]
  | cons a as ih => exact insertLe_pairwise le htrans htot a _ ih

namespace Postgres

/-- Comparison for ORDER BY request.requested_at (ascending). -/
def byRequestedAt (a b : TicketRow) : Bool :=
  decide (a.requested_at ≤ b.requested_at)

/-- Modelled from the spec: the request view queried by the ticket reads
lives in schema.sql, which is not under src/; the spec states GetUnprinted
returns Tickets, so the view is modelled as presenting the ticket rows. -/
def request_view (db : DB) : List TicketRow :=
  db.tickets

/-- Predicate of the WHERE printed = false clause. -/
def notPrinted (t : TicketRow) : Bool :=
  t.printed == false

/-- Embeds `get_unprinted_tickets`: the select inner-joins the request
view with pg_timezone_names on the supplied zone name, keeps printed =
false, orders by requested_at ascending and renders each row with the
zone abbreviation; zero result rows — whether because no unprinted
tickets exist or because the zone name matches no pg_timezone_names
row (an unrecognized zone likewise yields None via the error path of the
select) — make the function return None. -/
def get_unprinted_tickets (time_zone : String) (db : DB) :
    Option (List (TicketRow × String)) :=
  let zrows := db.tzNames.filter (fun z => z.name == time_zone)
  let unprinted := (request_view db).filter notPrinted
  let rows := (sortByLe byRequestedAt unprinted).flatMap
    (fun t => zrows.map (fun z => (t, z.tzAbbrev)))
  if rows.isEmpty then none else some rows

end Postgres

namespace Api

/-- Embeds the `/download_unprinted_tickets` handler: a None result from
the store maps to the 404 no-unprinted-tickets response, rows map to a
200 response carrying them. -/
def download_unprinted_tickets (time_zone : String) (db : DB) :
    Nat × Option (List (TicketRow × String)) :=
  match Postgres.get_unprinted_tickets time_zone db with
  | none => (404, none)
  | some rows => (200, some rows)

end Api

/-- C6 counterexample: an unrecognized timezone name on a store holding
an unprinted ticket and an empty unprinted set under a recognized
timezone produce the identical outcome — None from the store and the same
404 response from the endpoint — so the unrecognized-timezone failure is
not a condition distinct from the empty-result signal. -/
theorem c6_counterexample :
    Postgres.get_unprinted_tickets "America/Nowhere"
      ⟨[], [⟨1, 7, .s "z", "10.0.0.1", none, none, 50, false⟩],
        [], [], [], [], [], [⟨"Etc/UTC", "UTC"⟩], 1⟩ = none ∧
    Postgres.get_unprinted_tickets "Etc/UTC"
      ⟨[], [], [], [], [], [], [], [⟨"Etc/UTC", "UTC"⟩], 0⟩ = none ∧
    Api.download_unprinted_tickets "America/Nowhere"
      ⟨[], [⟨1, 7, .s "z", "10.0.0.1", none, none, 50, false⟩],
        [], [], [], [], [], [⟨"Etc/UTC", "UTC"⟩], 1⟩ = (404, none) ∧
    Api.download_unprinted_tickets "Etc/UTC"
      ⟨[], [], [], [], [], [], [], [⟨"Etc/UTC", "UTC"⟩], 0⟩ = (404, none) :=
  ⟨rfl, rfl, rfl, rfl⟩

/-- A flatMap producing a singleton per element is a map. -/
theorem flatMap_single {α β : Type} (f : α → β) (l : List α) :
    l.flatMap (fun a => [f a]) = l.map f := by
  induction l with
  | nil => rfl
  | cons a as ih => simp [ih]

/-- A flatMap producing nothing per element is empty. -/
theorem flatMap_const_nil {α β : Type} (l : List α) :
    l.flatMap (fun _ => ([] : List β)) = [] := by
  induction l with
  | nil => rfl
  | cons a as ih => simp [ih]

/-- C6 amended: get_unprinted_tickets does not distinguish its two
failure conditions — a timezone name matching no pg_timezone_names row
and an empty unprinted set both yield the same None signal, which the
endpoint maps to the same 404 response; on success (a recognized timezone
and at least one unprinted ticket) it returns exactly the tickets with
printed = false, ordered by requested_at ascending. -/
theorem c6_get_unprinted_failure_modes (time_zone : String) (db : DB) :
    (db.tzNames.filter (fun zr => zr.name == time_zone) = [] →
      Postgres.get_unprinted_tickets time_zone db = none ∧
      Api.download_unprinted_tickets time_zone db = (404, none)) ∧
    ((Postgres.request_view db).filter Postgres.notPrinted = [] →
      Postgres.get_unprinted_tickets time_zone db = none ∧
      Api.download_unprinted_tickets time_zone db = (404, none)) ∧
    (∀ z, db.tzNames.filter (fun zr => zr.name == time_zone) = [z] →
      (Postgres.request_view db).filter Postgres.notPrinted ≠ [] →
      ∃ rows, Postgres.get_unprinted_tickets time_zone db = some rows ∧
        Api.download_unprinted_tickets time_zone db = (200, some rows) ∧
        List.Perm (rows.map Prod.fst)
          ((Postgres.request_view db).filter Postgres.notPrinted) ∧
        rows.Pairwise (fun a b => a.1.requested_at ≤ b.1.requested_at)) := by
  refine ⟨?_, ?_, ?_⟩
  · intro hz
    have hget : Postgres.get_unprinted_tickets time_zone db = none := by
      simp [Postgres.get_unprinted_tickets, hz, flatMap_const_nil]
    exact ⟨hget, by simp [Api.download_unprinted_tickets, hget]⟩
  · intro hu
    have hget : Postgres.get_unprinted_tickets time_zone db = none := by
      simp [Postgres.get_unprinted_tickets, hu, sortByLe]
    exact ⟨hget, by simp [Api.download_unprinted_tickets, hget]⟩
  · intro z hz hne
    have hperm := sortByLe_perm Postgres.byRequestedAt
      ((Postgres.request_view db).filter Postgres.notPrinted)
    have hsortne : sortByLe Postgres.byRequestedAt
        ((Postgres.request_view db).filter Postgres.notPrinted) ≠ [] := by
      intro h0
      rw [h0] at hperm
      exact hne (hperm.symm.eq_nil)
    have hisEmpty : ((sortByLe Postgres.byRequestedAt
        ((Postgres.request_view db).filter Postgres.notPrinted)).map
          (fun t => (t, z.tzAbbrev))).isEmpty = false := by
      cases hcase : sortByLe Postgres.byRequestedAt
          ((Postgres.request_view db).filter Postgres.notPrinted) with
      | nil => exact absurd hcase hsortne
      | cons a as => simp
    have hget : Postgres.get_unprinted_tickets time_zone db =
        some ((sortByLe Postgres.byRequestedAt
          ((Postgres.request_view db).filter Postgres.notPrinted)).map
            (fun t => (t, z.tzAbbrev))) := by
      simp only [Postgres.get_unprinted_tickets, hz]
      simp only [List.map_cons, List.map_nil, flatMap_single]
      rw [if_neg (by simp [hisEmpty])]
    refine ⟨_, hget, by simp [Api.download_unprinted_tickets, hget], ?_, ?_⟩
    · rw [List.map_map]
      have hcomp : (Prod.fst ∘ fun t => (t, z.tzAbbrev)) =
          (id : TicketRow → TicketRow) := rfl
      rw [hcomp, List.map_id]
      exact hperm
    · refine List.Pairwise.map (fun t => (t, z.tzAbbrev)) ?_
        (sortByLe_pairwise Postgres.byRequestedAt ?_ ?_ _)
      · intro a b hab
        simpa [Postgres.byRequestedAt] using hab
      · intro a b c hab hbc
        simp only [Postgres.byRequestedAt, decide_eq_true_eq] at hab hbc ⊢
        exact le_trans hab hbc
      · intro a b
        simp only [Postgres.byRequestedAt, decide_eq_true_eq]
        exact le_total a.requested_at b.requested_at

/-- Witness for C6 amended: on a store with one unprinted ticket and the
Etc/UTC zone row, an unmatched zone name gives the None and 404 outcome,
and the same outcome arises from an empty store under the recognized
zone. -/
theorem c6_get_unprinted_failure_modes_witness :
    (Postgres.get_unprinted_tickets "America/Nowhere"
      ⟨[], [⟨1, 7, .s "z", "10.0.0.1", none, none, 50, false⟩],
        [], [], [], [], [], [⟨"Etc/UTC", "UTC"⟩], 1⟩ = none ∧
     Api.download_unprinted_tickets "America/Nowhere"
      ⟨[], [⟨1, 7, .s "z", "10.0.0.1", none, none, 50, false⟩],
        [], [], [], [], [], [⟨"Etc/UTC", "UTC"⟩], 1⟩ = (404, none)) ∧
    (Postgres.get_unprinted_tickets "Etc/UTC"
      ⟨[], [], [], [], [], [], [], [⟨"Etc/UTC", "UTC"⟩], 0⟩ = none ∧
     Api.download_unprinted_tickets "Etc/UTC"
      ⟨[], [], [], [], [], [], [], [⟨"Etc/UTC", "UTC"⟩], 0⟩ = (404, none)) :=
  ⟨(c6_get_unprinted_failure_modes "America/Nowhere"
      ⟨[], [⟨1, 7, .s "z", "10.0.0.1", none, none, 50, false⟩],
        [], [], [], [], [], [⟨"Etc/UTC", "UTC"⟩], 1⟩).1 rfl,
   (c6_get_unprinted_failure_modes "Etc/UTC"
      ⟨[], [], [], [], [], [], [], [⟨"Etc/UTC", "UTC"⟩], 0⟩).2.1 rfl⟩
